import Mathlib

/-!
Shallow embedding of the widget/layout reconciliation logic of
`plugins/home/src/components/CustomHomepage/CustomHomepageGrid.tsx`:
the layout document store (`useHomeStorage`), the default layout builder
(`convertConfigToDefaultWidgets`), and the grid interaction handlers
(`handleAdd`, `handleRemove`, `clearLayout`, `changeEditMode`,
`handleLayoutChange`, `handleRestoreDefaultConfig`).

Modelling conventions:
- JavaScript numbers occurring in layouts are integers throughout the
  component, except that `Math.max(...[])` in `handleAdd` yields
  `-Infinity`; layout `y` coordinates are therefore modelled as
  `WithBot ℤ` with `⊥` standing for `-Infinity` (note `⊥ + 1 = ⊥`,
  matching `-Infinity + 1 = -Infinity`).
- `Math.random().toString(36).slice(2)` suffixes are cosmetic; they are
  passed in as explicit `rand` parameters.
- The persisted JSON string is modelled at the level of JSON values
  (`Json`): `JSON.stringify` becomes `encodeGrid`, and the stored raw
  string is a `StoreValue` (absent, a non-JSON string, or a JSON value).
  `JSON.stringify` serializes the non-finite number `-Infinity` as
  `null` and omits fields holding `undefined`; the encoders reproduce
  both behaviours.
-/

namespace CustomHomepageGrid

/-- JSON values, the image of JSON.parse on stored strings. -/
inductive Json where
  | null
  | bool (b : Bool)
  | num (n : ℤ)
  | str (s : String)
  | arr (items : List Json)
  | obj (fields : List (String × Json))

/-- Layout entry of react-grid-layout (the `Layout` type): `i` is the key,
`x`, `y`, `w`, `h` the position and size, `minW`, `maxW`, `minH`, `maxH`
optional bounds, plus the per-item drag and resize flags. `y` is
`WithBot ℤ` so the `-Infinity` produced by `handleAdd` on an empty widget
list is representable. -/
structure GridLayout where
  i : String
  x : ℤ
  y : WithBot ℤ
  w : ℤ
  h : ℤ
  minW : Option ℤ
  maxW : Option ℤ
  minH : Option ℤ
  maxH : Option ℤ
  isDraggable : Bool
  isResizable : Bool
  deriving DecidableEq

/-- Placement entry persisted in the layout document. The `id` and
`settings` fields are `Option` because `handleLayoutChange` builds
widgets by spreading a possibly-undefined lookup result
(`\x7b...widget, layout: l\x7d as GridWidget`), which leaves `id` and
`settings` undefined when no existing widget matches. -/
structure GridWidget where
  id : Option String
  layout : GridLayout
  settings : Option (List (String × Json))

/-- Catalog entry derived from a child declaration (the `Widget` type of
`./types`, minus the React `component` reference, which the
reconciliation logic only reads for rendering). -/
structure Widget where
  name : String
  title : Option String := none
  description : Option String := none
  width : Option ℤ := none
  minWidth : Option ℤ := none
  maxWidth : Option ℤ := none
  height : Option ℤ := none
  minHeight : Option ℤ := none
  maxHeight : Option ℤ := none
  deriving DecidableEq

/-- Component reference of a layout configuration entry: either a plain
widget name string, or a React element whose `core.extensionName`
component data may be absent. -/
inductive LayoutComponent where
  | nameStr (s : String)
  | element (extensionName : Option String)
  deriving DecidableEq

/-- Declarative default layout configuration entry (`LayoutConfiguration`
of `./types`): a component reference plus requested position and size. -/
structure LayoutConfiguration where
  component : LayoutComponent
  x : ℤ
  y : ℤ
  width : ℤ
  height : ℤ
  deriving DecidableEq

/-- Models Math.min(bound ?? Number.MAX_VALUE, v): when the bound is
absent, the minimum against Number.MAX_VALUE leaves the grid-scale value
unchanged. -/
def jsMin (bound : Option ℤ) (v : ℤ) : ℤ :=
  match bound with
  | some m => min m v
  | none => v

/-- Name resolution in `convertConfigToDefaultWidgets`: a string component
is the name itself, a React element contributes its `core.extensionName`
component data (possibly absent). -/
def resolveName (c : LayoutConfiguration) : Option String :=
  match c.component with
  | .nameStr s => some s
  | .element d => d

/-- Catalog resolution step of `convertConfigToDefaultWidgets`: the
JavaScript-falsy guard `if (!name) return null` drops an absent or empty
name, then `availableWidgets.find(w => w.name === name)`. -/
def resolveWidget (cat : List Widget) (c : LayoutConfiguration) : Option Widget :=
  match resolveName c with
  | none => none
  | some name => if name = "" then none else cat.find? (fun w => w.name == name)

/-- Per-entry body of the `config.map` in `convertConfigToDefaultWidgets`:
`i` is the entry index, `rand i` the random id suffix for that entry.
Returns `none` exactly where the source returns `null`. -/
def convertEntry (rand : ℕ → String) (cat : List Widget) (i : ℕ)
    (c : LayoutConfiguration) : Option GridWidget :=
  match resolveWidget cat c with
  | none => none
  | some widget =>
    let widgetId := widget.name ++ "__" ++ toString i ++ rand i
    some
      { id := some widgetId
        layout :=
          { i := widgetId
            x := c.x
            y := (c.y : WithBot ℤ)
            w := jsMin widget.maxWidth c.width
            h := jsMin widget.maxHeight c.height
            minW := widget.minWidth
            maxW := widget.maxWidth
            minH := widget.minHeight
            maxH := widget.maxHeight
            isDraggable := false
            isResizable := false }
        settings := some [] }

/-- Indexed traversal implementing `compact(config.map((conf, i) => ...))`. -/
def convertGo (rand : ℕ → String) (cat : List Widget) :
    ℕ → List LayoutConfiguration → List GridWidget
  | _, [] => []
  | i, c :: rest =>
    match convertEntry rand cat i c with
    | some g => g :: convertGo rand cat (i + 1) rest
    | none => convertGo rand cat (i + 1) rest

/-- Default layout builder `convertConfigToDefaultWidgets(config,
availableWidgets)`: maps each configuration entry to a grid widget and
drops (`compact`) the entries that resolve to no catalog widget. -/
def convertConfigToDefaultWidgets (rand : ℕ → String)
    (config : List LayoutConfiguration) (cat : List Widget) : List GridWidget :=
  convertGo rand cat 0 config

/-- Controller state: the current widget list plus the edit-mode flag.
Persisting through `setWidgets` is collapsed into the widgets field
(single writer, read-your-writes store). -/
structure GridState where
  widgets : List GridWidget
  editMode : Bool

/-- Models Math.max(...widgets.map(w => w.layout.y + w.layout.h)): the
fold of max with identity `-Infinity` (`⊥`), as Math.max of no arguments
is `-Infinity`. -/
def maxYplusH (ws : List GridWidget) : WithBot ℤ :=
  (ws.map (fun w => w.layout.y + (w.layout.h : WithBot ℤ))).foldr max ⊥

/-- Widget object appended by `handleAdd`: id
`name + "__" + (widgets.length + 1) + randomSuffix`, position `x = 0`,
`y = Math.max(...) + 1`, size clamped by the catalog bounds with defaults
12 and 4, flags set from the current edit mode. -/
def newGridWidget (rand : String) (widget : Widget) (st : GridState) : GridWidget :=
  let widgetId := widget.name ++ "__" ++ toString (st.widgets.length + 1) ++ rand
  { id := some widgetId
    layout :=
      { i := widgetId
        x := 0
        y := maxYplusH st.widgets + 1
        w := jsMin widget.maxWidth (widget.width.getD 12)
        h := jsMin widget.maxHeight (widget.height.getD 4)
        minW := widget.minWidth
        maxW := widget.maxWidth
        minH := widget.minHeight
        maxH := widget.maxHeight
        isResizable := st.editMode
        isDraggable := st.editMode }
    settings := some [] }

/-- Handler `handleAdd`: `setWidgets([...widgets, newWidget])`. -/
def handleAdd (rand : String) (widget : Widget) (st : GridState) : GridState :=
  { st with widgets := st.widgets ++ [newGridWidget rand widget st] }

/-- Handler `handleRemove`: `setWidgets(widgets.filter(w => w.id !== widgetId))`. -/
def handleRemove (widgetId : String) (st : GridState) : GridState :=
  { st with widgets := st.widgets.filter (fun w => w.id ≠ some widgetId) }

/-- Handler `clearLayout`: `setWidgets([])`. -/
def clearLayout (st : GridState) : GridState :=
  { st with widgets := [] }

/-- Handler `changeEditMode(mode)`: sets the edit-mode flag and rewrites
every widget's `isDraggable` and `isResizable` layout flags to `mode`. -/
def changeEditMode (mode : Bool) (st : GridState) : GridState :=
  { widgets :=
      st.widgets.map (fun w =>
        { w with layout := { w.layout with isDraggable := mode, isResizable := mode } })
    editMode := mode }

/-- Per-item merge of `handleLayoutChange`: `widgets.find(w => w.id === l.i)`
then the spread `\x7b...widget, layout: l\x7d`; when the find misses, the
spread of `undefined` leaves `id` and `settings` undefined. -/
def mergeLayoutItem (ws : List GridWidget) (l : GridLayout) : GridWidget :=
  match ws.find? (fun w => w.id == some l.i) with
  | some widget => { widget with layout := l }
  | none => { id := none, layout := l, settings := none }

/-- Handler `handleLayoutChange(newLayout)`: when edit mode is on, replaces
the widget list by `newLayout.map(mergeLayoutItem)`; otherwise the event
is ignored and the state is unchanged. -/
def handleLayoutChange (newLayout : List GridLayout) (st : GridState) : GridState :=
  if st.editMode then
    { st with widgets := newLayout.map (mergeLayoutItem st.widgets) }
  else st

/-- Handler `handleRestoreDefaultConfig`: `setWidgets(defaultLayout)`,
where `defaultLayout` is recomputed from config and catalog. -/
def handleRestoreDefaultConfig (defaultLayout : List GridWidget) (st : GridState) :
    GridState :=
  { st with widgets := defaultLayout }

/-- Raw value held by the external store under the fixed key: absent, a
string that JSON.parse rejects, or a string parsing to a JSON value. -/
inductive StoreValue where
  | absent
  | corrupt (raw : String)
  | value (j : Json)

/-- Serialization of a layout `y` coordinate: JSON.stringify writes the
non-finite number `-Infinity` as `null`. -/
def encodeY (y : WithBot ℤ) : Json :=
  WithBot.recBotCoe Json.null (fun n => Json.num n) y

/-- Serialization of an optional integer field: JSON.stringify omits
fields holding `undefined`. -/
def encodeOptInt (k : String) (o : Option ℤ) : List (String × Json) :=
  match o with
  | none => []
  | some n => [(k, Json.num n)]

/-- Serialization of a `GridLayout`, in source field order. -/
def encodeLayout (l : GridLayout) : Json :=
  Json.obj
    ([("i", Json.str l.i), ("x", Json.num l.x), ("y", encodeY l.y),
      ("w", Json.num l.w), ("h", Json.num l.h)] ++
      encodeOptInt "minW" l.minW ++ encodeOptInt "maxW" l.maxW ++
      encodeOptInt "minH" l.minH ++ encodeOptInt "maxH" l.maxH ++
      [("isDraggable", Json.bool l.isDraggable),
       ("isResizable", Json.bool l.isResizable)])

/-- Serialization of a `GridWidget`: undefined `id` or `settings` fields
are omitted by JSON.stringify. -/
def encodeWidget (g : GridWidget) : Json :=
  Json.obj
    ((match g.id with
      | none => []
      | some s => [("id", Json.str s)]) ++
     [("layout", encodeLayout g.layout)] ++
     (match g.settings with
      | none => []
      | some s => [("settings", Json.obj s)]))

/-- Serialization of the version-1 envelope written by `setWidgets` in
`useHomeStorage`: version 1, pages with the single "default" key. -/
def encodeGrid (ws : List GridWidget) : Json :=
  Json.obj
    [("version", Json.num 1),
     ("pages", Json.obj [("default", Json.arr (ws.map encodeWidget))])]

/-- Store side of `setWidgets`: `storageApi.set(key, JSON.stringify(grid))`. -/
def saveWidgets (ws : List GridWidget) : StoreValue :=
  StoreValue.value (encodeGrid ws)

/-- Field lookup in a parsed JSON object. -/
def getField : List (String × Json) → String → Option Json
  | [], _ => none
  | (k, v) :: rest, key => if k = key then some v else getField rest key

/-- Modelled from the spec: the Zod schemas of `./types`
(`CustomHomepageGridStateV1Schema` and the widget and layout schemas it
contains) are not among the sources; the persisted document format of
spec section 6 is used. Required string field. -/
def decodeStrField (fields : List (String × Json)) (k : String) : Option String :=
  match getField fields k with
  | some (.str s) => some s
  | _ => none

/-- Modelled from the spec: required integer field of the layout schema. -/
def decodeIntField (fields : List (String × Json)) (k : String) : Option ℤ :=
  match getField fields k with
  | some (.num n) => some n
  | _ => none

/-- Modelled from the spec: required boolean field of the layout schema. -/
def decodeBoolField (fields : List (String × Json)) (k : String) : Option Bool :=
  match getField fields k with
  | some (.bool b) => some b
  | _ => none

/-- Modelled from the spec: optional integer field of the layout schema
(absent is accepted, a present non-number is a validation failure). -/
def decodeOptIntField (fields : List (String × Json)) (k : String) :
    Option (Option ℤ) :=
  match getField fields k with
  | none => some none
  | some (.num n) => some (some n)
  | some _ => none

/-- Modelled from the spec: validation of one layout object against the
persisted document format `\x7b"i": string, "x": int, "y": int, "w": int,
"h": int, "minW"?: int, "maxW"?: int, "minH"?: int, "maxH"?: int,
"isDraggable": bool, "isResizable": bool\x7d`. -/
def decodeLayout (j : Json) : Option GridLayout :=
  match j with
  | .obj fields => do
    let i ← decodeStrField fields "i"
    let x ← decodeIntField fields "x"
    let y ← decodeIntField fields "y"
    let w ← decodeIntField fields "w"
    let h ← decodeIntField fields "h"
    let minW ← decodeOptIntField fields "minW"
    let maxW ← decodeOptIntField fields "maxW"
    let minH ← decodeOptIntField fields "minH"
    let maxH ← decodeOptIntField fields "maxH"
    let isD ← decodeBoolField fields "isDraggable"
    let isR ← decodeBoolField fields "isResizable"
    pure
      { i := i, x := x, y := (y : WithBot ℤ), w := w, h := h,
        minW := minW, maxW := maxW, minH := minH, maxH := maxH,
        isDraggable := isD, isResizable := isR }
  | _ => none

/-- Modelled from the spec: validation of one widget object, requiring
`id` (string), `layout` (layout object) and `settings` (object). -/
def decodeWidget (j : Json) : Option GridWidget :=
  match j with
  | .obj fields => do
    let id ← decodeStrField fields "id"
    let layoutJson ← getField fields "layout"
    let layout ← decodeLayout layoutJson
    let settings ←
      match getField fields "settings" with
      | some (.obj s) => some s
      | _ => none
    pure { id := some id, layout := layout, settings := some settings }
  | _ => none

/-- Modelled from the spec: validation of an array of widget objects,
failing when any single element fails. -/
def decodeWidgets : List Json → Option (List GridWidget)
  | [] => some []
  | j :: rest => do
    let g ← decodeWidget j
    let gs ← decodeWidgets rest
    pure (g :: gs)

/-- Modelled from the spec: validation of the whole layout document,
requiring `version` equal to the literal 1 and `pages.default` to be an
array of valid widgets; returns the `pages.default` widget sequence. -/
def decodeGrid (j : Json) : Option (List GridWidget) :=
  match j with
  | .obj fields =>
    match getField fields "version" with
    | some (.num v) =>
      if v = 1 then
        match getField fields "pages" with
        | some (.obj pagesFields) =>
          match getField pagesFields "default" with
          | some (.arr items) => decodeWidgets items
          | _ => none
        | _ => none
      else none
    | _ => none
  | _ => none

/-- Load side of `useHomeStorage`: absent snapshot gives the default;
otherwise JSON.parse plus schema validation inside try/catch, falling
back to the default on any failure. -/
def loadWidgets (defaultWidgets : List GridWidget) (sv : StoreValue) :
    List GridWidget :=
  match sv with
  | .absent => defaultWidgets
  | .corrupt _ => defaultWidgets
  | .value j => (decodeGrid j).getD defaultWidgets

/-- Widgets whose serialization survives validation: an id, a settings
object, and a finite (integer) `y` coordinate. -/
def WidgetEncodable (g : GridWidget) : Prop :=
  g.id.isSome = true ∧ g.settings.isSome = true ∧ g.layout.y ≠ ⊥

instance (g : GridWidget) : Decidable (WidgetEncodable g) := by
  unfold WidgetEncodable; infer_instance

lemma decodeLayout_encodeLayout (l : GridLayout) (hy : l.y ≠ ⊥) :
    decodeLayout (encodeLayout l) = some l := by
  obtain ⟨i, x, y, w, h, minW, maxW, minH, maxH, isD, isR⟩ := l
  obtain ⟨n, rfl⟩ : ∃ n : ℤ, y = (n : WithBot ℤ) := by
    cases y with
    | bot => exact absurd rfl hy
    | coe n => exact ⟨n, rfl⟩
  cases minW <;> cases maxW <;> cases minH <;> cases maxH <;>
    simp [encodeLayout, encodeOptInt, encodeY, decodeLayout, decodeStrField,
      decodeIntField, decodeBoolField, decodeOptIntField, getField]

lemma decodeWidget_encodeWidget (g : GridWidget) (h : WidgetEncodable g) :
    decodeWidget (encodeWidget g) = some g := by
  obtain ⟨id, layout, settings⟩ := g
  obtain ⟨hid, hs, hy⟩ := h
  cases id with
  | none => simp [Option.isSome] at hid
  | some s =>
    cases settings with
    | none => simp [Option.isSome] at hs
    | some st =>
      simp only [encodeWidget, decodeWidget, decodeStrField, getField]
      simp [decodeLayout_encodeLayout _ hy]

lemma decodeWidgets_encodeWidgets (ws : List GridWidget)
    (h : ∀ g ∈ ws, WidgetEncodable g) :
    decodeWidgets (ws.map encodeWidget) = some ws := by
  induction ws with
  | nil => rfl
  | cons g rest ih =>
    have hg := decodeWidget_encodeWidget g (h g (List.mem_cons_self g rest))
    have hrest := ih (fun x hx => h x (List.mem_cons_of_mem g hx))
    simp [decodeWidgets, hg, hrest]

lemma decodeGrid_encodeGrid (ws : List GridWidget)
    (h : ∀ g ∈ ws, WidgetEncodable g) :
    decodeGrid (encodeGrid ws) = some ws := by
  simp [encodeGrid, decodeGrid, getField, decodeWidgets_encodeWidgets ws h]

/-- C1 (amended): storing a widget sequence through `save` (version-1
envelope under the single "default" page key) and loading it back with
any default returns exactly the original sequence, provided every widget
is schema-encodable (has an id, a settings object, and a finite `y`
coordinate — a widget with `y = -Infinity`, as `handleAdd` produces on
an empty list, serializes to `null` and fails validation, so `load`
falls back to the default); and for every stored JSON value that
validates as a version-1 layout document, `load` returns exactly its
`pages.default` sequence unchanged. -/
theorem save_load_roundtrip (ws dflt : List GridWidget)
    (h : ∀ g ∈ ws, WidgetEncodable g) :
    loadWidgets dflt (saveWidgets ws) = ws ∧
      ∀ (j : Json) (parsed : List GridWidget), decodeGrid j = some parsed →
        loadWidgets dflt (StoreValue.value j) = parsed := by
  refine ⟨?_, ?_⟩
  · simp [loadWidgets, saveWidgets, decodeGrid_encodeGrid ws h]
  · intro j parsed hj
    simp [loadWidgets, hj]

theorem save_load_roundtrip_witness :
    (∀ g ∈ [({ id := some "clock__0r"
               layout :=
                 { i := "clock__0r", x := 0, y := (2 : ℤ), w := 3, h := 4,
                   minW := none, maxW := some 6, minH := some 1, maxH := none,
                   isDraggable := false, isResizable := false }
               settings := some [("n", Json.num 7)] } : GridWidget)],
        WidgetEncodable g) ∧
      (loadWidgets []
            (saveWidgets
              [{ id := some "clock__0r"
                 layout :=
                   { i := "clock__0r", x := 0, y := (2 : ℤ), w := 3, h := 4,
                     minW := none, maxW := some 6, minH := some 1, maxH := none,
                     isDraggable := false, isResizable := false }
                 settings := some [("n", Json.num 7)] }]) =
          [{ id := some "clock__0r"
             layout :=
               { i := "clock__0r", x := 0, y := (2 : ℤ), w := 3, h := 4,
                 minW := none, maxW := some 6, minH := some 1, maxH := none,
                 isDraggable := false, isResizable := false }
             settings := some [("n", Json.num 7)] }] ∧
        ∀ (j : Json) (parsed : List GridWidget), decodeGrid j = some parsed →
          loadWidgets [] (StoreValue.value j) = parsed) :=
  ⟨by decide, save_load_roundtrip _ [] (by decide)⟩

/-- C1 counterexample: the round trip is not the identity on every widget
sequence. A widget whose layout has `y = -Infinity` (exactly what
`handleAdd` produces when the widget list is empty) is serialized by
JSON.stringify with `"y": null`, which fails schema validation on load,
so `load` returns the supplied default instead of the saved sequence. -/
theorem save_load_infinity_counterexample :
    loadWidgets []
        (saveWidgets
          [{ id := some "a__1r"
             layout :=
               { i := "a__1r", x := 0, y := ⊥, w := 1, h := 1,
                 minW := none, maxW := none, minH := none, maxH := none,
                 isDraggable := false, isResizable := false }
             settings := some [] }]) = [] ∧
      ([{ id := some "a__1r"
          layout :=
            { i := "a__1r", x := 0, y := ⊥, w := 1, h := 1,
              minW := none, maxW := none, minH := none, maxH := none,
              isDraggable := false, isResizable := false }
          settings := some [] }] : List GridWidget) ≠ [] := by
  refine ⟨rfl, ?_⟩
  intro hcontra
  exact List.cons_ne_nil _ _ hcontra

/-- C2: whenever the stored value is absent, is a string that JSON.parse
rejects, or is a JSON value that fails validation against the layout
document schema, `load` returns the caller-supplied default (and, being
a total function, never throws). -/
theorem load_fallback_on_invalid (dflt : List GridWidget) (sv : StoreValue)
    (h : sv = StoreValue.absent ∨ (∃ s, sv = StoreValue.corrupt s) ∨
      ∃ j, sv = StoreValue.value j ∧ decodeGrid j = none) :
    loadWidgets dflt sv = dflt := by
  rcases h with h | ⟨s, h⟩ | ⟨j, h, hj⟩ <;> subst h <;>
    simp [loadWidgets]
  simp [hj]

theorem load_fallback_on_invalid_witness :
    ((StoreValue.value (Json.num 5) = StoreValue.absent ∨
        (∃ s, StoreValue.value (Json.num 5) = StoreValue.corrupt s) ∨
        ∃ j, StoreValue.value (Json.num 5) = StoreValue.value j ∧
          decodeGrid j = none) ∧
      loadWidgets
          [{ id := some "a__1r"
             layout :=
               { i := "a__1r", x := 0, y := (0 : ℤ), w := 1, h := 1,
                 minW := none, maxW := none, minH := none, maxH := none,
                 isDraggable := false, isResizable := false }
             settings := some [] }] (StoreValue.value (Json.num 5)) =
        [{ id := some "a__1r"
           layout :=
             { i := "a__1r", x := 0, y := (0 : ℤ), w := 1, h := 1,
               minW := none, maxW := none, minH := none, maxH := none,
               isDraggable := false, isResizable := false }
           settings := some [] }]) :=
  ⟨Or.inr (Or.inr ⟨Json.num 5, rfl, rfl⟩),
    load_fallback_on_invalid _ _ (Or.inr (Or.inr ⟨Json.num 5, rfl, rfl⟩))⟩

/-- C3: the claim says `add` on an empty widget list places the widget at
`y = 0`; the code computes `y = Math.max(...[]) + 1 = -Infinity + 1 =
-Infinity` (modelled as `⊥`). Evaluating `handleAdd` at the failing
input (the empty widget list) shows the produced `y` is `⊥`, not `0`:
the spec itself marks this as a latent edge-case bug in the code. -/
theorem handleAdd_empty_list_y_eval :
    ((handleAdd "r" { name := "clock" }
          { widgets := [], editMode := false }).widgets.map
        (fun g => g.layout.y)) = [⊥] ∧
      (⊥ : WithBot ℤ) ≠ (0 : WithBot ℤ) := by
  constructor
  · simp [handleAdd, newGridWidget, maxYplusH]
  · decide

lemma convertEntry_some {rand : ℕ → String} {cat : List Widget} {i : ℕ}
    {c : LayoutConfiguration} {g : GridWidget}
    (h : convertEntry rand cat i c = some g) :
    ∃ widget, resolveWidget cat c = some widget ∧
      g.layout.w = jsMin widget.maxWidth c.width ∧
      g.layout.h = jsMin widget.maxHeight c.height ∧
      g.layout.isDraggable = false ∧ g.layout.isResizable = false := by
  unfold convertEntry at h
  cases hrw : resolveWidget cat c with
  | none => rw [hrw] at h; exact absurd h (by simp)
  | some widget =>
    rw [hrw] at h
    refine ⟨widget, rfl, ?_⟩
    obtain rfl := Option.some.inj h
    exact ⟨rfl, rfl, rfl, rfl⟩

lemma mem_convertGo {rand : ℕ → String} {cat : List Widget} :
    ∀ {i : ℕ} {cfg : List LayoutConfiguration} {g : GridWidget},
      g ∈ convertGo rand cat i cfg →
      ∃ j c, c ∈ cfg ∧ convertEntry rand cat j c = some g := by
  intro i cfg
  induction cfg generalizing i with
  | nil => intro g hg; simp [convertGo] at hg
  | cons c rest ih =>
    intro g hg
    cases hce : convertEntry rand cat i c with
    | some g0 =>
      rw [convertGo, hce] at hg
      rcases List.mem_cons.mp hg with hEq | hmem
      · exact ⟨i, c, List.mem_cons_self c rest, by rw [hce, hEq]⟩
      · obtain ⟨j, c', hc', hce'⟩ := ih hmem
        exact ⟨j, c', List.mem_cons_of_mem c hc', hce'⟩
    | none =>
      rw [convertGo, hce] at hg
      obtain ⟨j, c', hc', hce'⟩ := ih hg
      exact ⟨j, c', List.mem_cons_of_mem c hc', hce'⟩

/-- C4: every grid widget produced by the default layout builder comes
from a configuration entry whose resolved catalog widget it obeys: its
width is `min(maxWidth, requested width)` whenever `maxWidth` is set
(hence never exceeds it), and its height is `min(maxHeight, requested
height)` whenever `maxHeight` is set (hence never exceeds it). -/
theorem convert_clamps_to_catalog_bounds (rand : ℕ → String)
    (cfg : List LayoutConfiguration) (cat : List Widget) (g : GridWidget)
    (hg : g ∈ convertConfigToDefaultWidgets rand cfg cat) :
    ∃ c widget, c ∈ cfg ∧ resolveWidget cat c = some widget ∧
      g.layout.w = jsMin widget.maxWidth c.width ∧
      g.layout.h = jsMin widget.maxHeight c.height ∧
      (∀ m, widget.maxWidth = some m → g.layout.w ≤ m) ∧
      (∀ m, widget.maxHeight = some m → g.layout.h ≤ m) := by
  obtain ⟨j, c, hc, hce⟩ := mem_convertGo hg
  obtain ⟨widget, hrw, hw, hh, _, _⟩ := convertEntry_some hce
  refine ⟨c, widget, hc, hrw, hw, hh, ?_, ?_⟩
  · intro m hm
    rw [hw, hm]
    exact min_le_left _ _
  · intro m hm
    rw [hh, hm]
    exact min_le_left _ _

/-- Random-suffix function used by the concrete builder examples. -/
def exampleRand : ℕ → String := fun _ => "r"

/-- Concrete configuration of the spec's clock example: requested size 8
by 5. -/
def exampleConfig : List LayoutConfiguration :=
  [{ component := LayoutComponent.nameStr "clock", x := 0, y := 0,
     width := 8, height := 5 }]

/-- Concrete catalog of the spec's clock example: maxWidth 4, maxHeight 2. -/
def exampleCatalog : List Widget :=
  [{ name := "clock", maxWidth := some 4, maxHeight := some 2 }]

/-- Grid widget the builder produces for the clock example: size clamped
to 4 by 2. -/
def exampleClockWidget : GridWidget :=
  { id := some "clock__0r"
    layout :=
      { i := "clock__0r", x := 0, y := (0 : ℤ), w := 4, h := 2,
        minW := none, maxW := some 4, minH := none, maxH := some 2,
        isDraggable := false, isResizable := false }
    settings := some [] }

theorem convert_clamps_witness :
    exampleClockWidget ∈
        convertConfigToDefaultWidgets exampleRand exampleConfig exampleCatalog ∧
      ∃ c widget, c ∈ exampleConfig ∧ resolveWidget exampleCatalog c = some widget ∧
        exampleClockWidget.layout.w = jsMin widget.maxWidth c.width ∧
        exampleClockWidget.layout.h = jsMin widget.maxHeight c.height ∧
        (∀ m, widget.maxWidth = some m → exampleClockWidget.layout.w ≤ m) ∧
        (∀ m, widget.maxHeight = some m → exampleClockWidget.layout.h ≤ m) := by
  have hm : exampleClockWidget ∈
      convertConfigToDefaultWidgets exampleRand exampleConfig exampleCatalog := by
    rw [show convertConfigToDefaultWidgets exampleRand exampleConfig exampleCatalog
        = [exampleClockWidget] from rfl]
    exact List.mem_singleton.mpr rfl
  exact ⟨hm, convert_clamps_to_catalog_bounds _ _ _ _ hm⟩

lemma convertGo_length (rand : ℕ → String) (cat : List Widget) :
    ∀ (i : ℕ) (cfg : List LayoutConfiguration),
      (convertGo rand cat i cfg).length
        = cfg.countP (fun c => (resolveWidget cat c).isSome) := by
  intro i cfg
  induction cfg generalizing i with
  | nil => rfl
  | cons c rest ih =>
    cases h : resolveWidget cat c with
    | none => simp [convertGo, convertEntry, h, List.countP_cons, ih]
    | some widget => simp [convertGo, convertEntry, h, List.countP_cons, ih]

lemma countP_resolvable_eq_sub (cfg : List LayoutConfiguration)
    (cat : List Widget) :
    cfg.countP (fun c => (resolveWidget cat c).isSome)
      = cfg.length - cfg.countP (fun c => (resolveWidget cat c).isNone) := by
  induction cfg with
  | nil => rfl
  | cons c rest ih =>
    have hle := List.countP_le_length
      (p := fun c => (resolveWidget cat c).isNone) (l := rest)
    cases h : resolveWidget cat c with
    | none => simp [List.countP_cons, h, ih]
    | some widget => simp [List.countP_cons, h, ih]; omega

lemma convertGo_proj (rand : ℕ → String) (cat : List Widget) :
    ∀ (i : ℕ) (cfg : List LayoutConfiguration),
      (convertGo rand cat i cfg).map
          (fun g => (g.layout.x, g.layout.y, g.layout.w, g.layout.h))
        = cfg.filterMap (fun c => (resolveWidget cat c).map (fun widget =>
            (c.x, (c.y : WithBot ℤ), jsMin widget.maxWidth c.width,
              jsMin widget.maxHeight c.height))) := by
  intro i cfg
  induction cfg generalizing i with
  | nil => rfl
  | cons c rest ih =>
    cases h : resolveWidget cat c with
    | none => simp [convertGo, convertEntry, h, List.filterMap_cons, ih]
    | some widget => simp [convertGo, convertEntry, h, List.filterMap_cons, ih]

/-- C5: for a configuration list of length N with exactly M entries that
resolve to no catalog widget (no resolvable name, or a name with no
catalog match), the builder returns exactly N - M widgets, and their
placements follow the input configuration order (the projection to
position and clamped size equals the order-preserving filterMap over the
configuration). -/
theorem convert_drops_unresolvable_length_order (rand : ℕ → String)
    (cfg : List LayoutConfiguration) (cat : List Widget) :
    (convertConfigToDefaultWidgets rand cfg cat).length
        = cfg.length - cfg.countP (fun c => (resolveWidget cat c).isNone) ∧
      (convertConfigToDefaultWidgets rand cfg cat).map
          (fun g => (g.layout.x, g.layout.y, g.layout.w, g.layout.h))
        = cfg.filterMap (fun c => (resolveWidget cat c).map (fun widget =>
            (c.x, (c.y : WithBot ℤ), jsMin widget.maxWidth c.width,
              jsMin widget.maxHeight c.height))) := by
  refine ⟨?_, convertGo_proj rand cat 0 cfg⟩
  rw [convertConfigToDefaultWidgets, convertGo_length rand cat 0 cfg]
  exact countP_resolvable_eq_sub cfg cat

lemma handleLayoutChange_of_not_edit (nl : List GridLayout) (st : GridState)
    (h : st.editMode = false) : handleLayoutChange nl st = st := by
  simp [handleLayoutChange, h]

/-- C6: after `changeEditMode false`, any sequence of layout-change
events, each with an arbitrary `newLayout` argument, leaves the widget
list entirely unchanged (the handler ignores the events while edit mode
is off). -/
theorem layout_change_ignored_after_edit_off (st : GridState)
    (nls : List (List GridLayout)) :
    (nls.foldl (fun s nl => handleLayoutChange nl s)
        (changeEditMode false st)).widgets
      = (changeEditMode false st).widgets := by
  have key : ∀ (l : List (List GridLayout)) (s : GridState), s.editMode = false →
      l.foldl (fun s nl => handleLayoutChange nl s) s = s := by
    intro l
    induction l with
    | nil => intro s _; rfl
    | cons nl rest ih =>
      intro s hs
      rw [List.foldl_cons, handleLayoutChange_of_not_edit nl s hs]
      exact ih s hs
  rw [key nls (changeEditMode false st) rfl]

/-- C7: removing an id produces a widget list in which no widget carries
that id, the surviving widgets are a sublist of the original (unchanged,
in their original relative order), every widget with a different id
survives, and when no widget has the id the list is unchanged. -/
theorem remove_widget_filter_spec (st : GridState) (widgetId : String) :
    (∀ g ∈ (handleRemove widgetId st).widgets, g.id ≠ some widgetId) ∧
      List.Sublist (handleRemove widgetId st).widgets st.widgets ∧
      (∀ g ∈ st.widgets, g.id ≠ some widgetId →
        g ∈ (handleRemove widgetId st).widgets) ∧
      ((∀ g ∈ st.widgets, g.id ≠ some widgetId) →
        (handleRemove widgetId st).widgets = st.widgets) := by
  have hw : (handleRemove widgetId st).widgets
      = st.widgets.filter (fun w => w.id ≠ some widgetId) := rfl
  refine ⟨?_, ?_, ?_, ?_⟩
  · intro g hg
    rw [hw] at hg
    simpa using (List.mem_filter.mp hg).2
  · rw [hw]
    exact List.filter_sublist _
  · intro g hg hne
    rw [hw]
    exact List.mem_filter.mpr ⟨hg, by simpa using hne⟩
  · intro hall
    rw [hw]
    exact List.filter_eq_self.mpr (fun g hg => by simpa using hall g hg)

/-- Minimal concrete layout used by the concrete controller examples. -/
def plainLayout (key : String) : GridLayout :=
  { i := key, x := 0, y := (0 : ℤ), w := 1, h := 1,
    minW := none, maxW := none, minH := none, maxH := none,
    isDraggable := false, isResizable := false }

/-- Widget kept by the concrete remove example. -/
def removeExampleKept : GridWidget :=
  { id := some "a", layout := plainLayout "a", settings := some [] }

/-- State of the concrete remove example: two widgets "a" and "b". -/
def removeExampleState : GridState :=
  { widgets :=
      [removeExampleKept,
       { id := some "b", layout := plainLayout "b", settings := some [] }]
    editMode := true }

theorem remove_widget_filter_spec_witness :
    removeExampleKept ∈ removeExampleState.widgets ∧
      removeExampleKept.id ≠ some "b" ∧
      removeExampleKept ∈ (handleRemove "b" removeExampleState).widgets := by
  refine ⟨List.mem_cons_self _ _, by simp [removeExampleKept], ?_⟩
  exact (remove_widget_filter_spec removeExampleState "b").2.2.1 removeExampleKept
    (List.mem_cons_self _ _) (by simp [removeExampleKept])

/-- C8 (amended): the widget appended by `add` and every widget rewritten
by `setEditMode` have `isDraggable` and `isResizable` equal to each
other and to the edit-mode value of that write, and the builder sets
both flags to `false`; the layout-change merge, however, copies the
engine-supplied layout verbatim, flags included, so its writes satisfy
the invariant only when the engine echoes flags equal to the edit mode
(see the counterexample). -/
theorem flags_equal_edit_mode_amended (rand : String) (widget : Widget)
    (st : GridState) (mode : Bool) (rnd : ℕ → String)
    (cfg : List LayoutConfiguration) (cat : List Widget) :
    (newGridWidget rand widget st).layout.isDraggable = st.editMode ∧
      (newGridWidget rand widget st).layout.isResizable = st.editMode ∧
      (handleAdd rand widget st).widgets
          = st.widgets ++ [newGridWidget rand widget st] ∧
      (changeEditMode mode st).editMode = mode ∧
      ((changeEditMode mode st).widgets.all
          (fun g => g.layout.isDraggable == mode
            && g.layout.isResizable == mode)) = true ∧
      ((convertConfigToDefaultWidgets rnd cfg cat).all
          (fun g => g.layout.isDraggable == false
            && g.layout.isResizable == false)) = true := by
  refine ⟨rfl, rfl, rfl, rfl, ?_, ?_⟩
  · rw [List.all_eq_true]
    intro g hg
    simp only [changeEditMode, List.mem_map] at hg
    obtain ⟨w, _, rfl⟩ := hg
    simp
  · rw [List.all_eq_true]
    intro g hg
    obtain ⟨j, c, _, hce⟩ := mem_convertGo hg
    obtain ⟨_, _, _, _, hD, hR⟩ := convertEntry_some hce
    simp [hD, hR]

/-- Engine-supplied layout with mismatched flags, as react-grid-layout is
free to hand to `onLayoutChange`. -/
def engineLayoutMismatch : GridLayout :=
  { i := "a", x := 0, y := (0 : ℤ), w := 1, h := 1,
    minW := none, maxW := none, minH := none, maxH := none,
    isDraggable := true, isResizable := false }

/-- C8 counterexample: a layout-change merge while edit mode is true
stores the engine-supplied layout verbatim, so a widget written by
`handleLayoutChange` can have `isDraggable = true` and
`isResizable = false` — the flags are neither equal to each other nor
both equal to the edit-mode value, refuting the claim for the
layout-change merge. -/
theorem layout_change_flags_counterexample :
    ((handleLayoutChange [engineLayoutMismatch]
          { widgets :=
              [{ id := some "a", layout := plainLayout "a", settings := some [] }]
            editMode := true }).widgets.map
        (fun g => (g.layout.isDraggable, g.layout.isResizable)))
      = [(true, false)] ∧ true ≠ false := by
  exact ⟨rfl, by decide⟩

/-- C9: `clear` sets the widget list to the empty sequence, and a
subsequent `restoreDefault` sets it to exactly the default layout
recomputed from config and catalog (not the empty list, and not any
previously persisted list). -/
theorem clear_then_restore_default (st : GridState) (rand : ℕ → String)
    (cfg : List LayoutConfiguration) (cat : List Widget) :
    (clearLayout st).widgets = [] ∧
      (handleRestoreDefaultConfig (convertConfigToDefaultWidgets rand cfg cat)
          (clearLayout st)).widgets
        = convertConfigToDefaultWidgets rand cfg cat :=
  ⟨rfl, rfl⟩

/-- C10: while edit mode is true, a layout-change produces exactly one
widget per entry of `newLayout`, in `newLayout` order; an entry whose id
matches no existing widget still yields an output widget carrying the
engine-supplied layout but undefined id and settings; and every existing
widget whose id appears in no `newLayout` entry is removed from state. -/
theorem layout_change_merge_shape (nl : List GridLayout) (st : GridState)
    (h : st.editMode = true) :
    (handleLayoutChange nl st).widgets = nl.map (mergeLayoutItem st.widgets) ∧
      (handleLayoutChange nl st).widgets.length = nl.length ∧
      (∀ l ∈ nl, st.widgets.find? (fun w => w.id == some l.i) = none →
        mergeLayoutItem st.widgets l
          = { id := none, layout := l, settings := none }) ∧
      (∀ g ∈ st.widgets, ∀ s, g.id = some s → (∀ l ∈ nl, l.i ≠ s) →
        g ∉ (handleLayoutChange nl st).widgets) := by
  have hw : (handleLayoutChange nl st).widgets
      = nl.map (mergeLayoutItem st.widgets) := by
    simp [handleLayoutChange, h]
  refine ⟨hw, by rw [hw, List.length_map], ?_, ?_⟩
  · intro l _ hfind
    simp [mergeLayoutItem, hfind]
  · intro g hg s hgs hni hmem
    rw [hw] at hmem
    obtain ⟨l, hl, hEq⟩ := List.mem_map.mp hmem
    subst hEq
    cases hf : st.widgets.find? (fun w => w.id == some l.i) with
    | some w =>
      simp only [mergeLayoutItem, hf] at hgs
      have hwid : w.id = some l.i := by simpa using List.find?_some hf
      rw [hwid] at hgs
      exact hni l hl (Option.some.inj hgs)
    | none =>
      simp [mergeLayoutItem, hf] at hgs

/-- State of the concrete layout-change example: one widget "a", edit
mode on. -/
def layoutChangeExampleState : GridState :=
  { widgets := [{ id := some "a", layout := plainLayout "a", settings := some [] }]
    editMode := true }

/-- Engine layouts of the concrete layout-change example: "a" moved to
x = 2, plus an entry "b" matching no existing widget. -/
def layoutChangeExampleLayouts : List GridLayout :=
  [{ plainLayout "a" with x := 2 }, plainLayout "b"]

theorem layout_change_merge_shape_witness :
    layoutChangeExampleState.editMode = true ∧
      ((handleLayoutChange layoutChangeExampleLayouts
            layoutChangeExampleState).widgets
          = layoutChangeExampleLayouts.map
              (mergeLayoutItem layoutChangeExampleState.widgets) ∧
        (handleLayoutChange layoutChangeExampleLayouts
            layoutChangeExampleState).widgets.length
          = layoutChangeExampleLayouts.length ∧
        (∀ l ∈ layoutChangeExampleLayouts,
          layoutChangeExampleState.widgets.find?
              (fun w => w.id == some l.i) = none →
          mergeLayoutItem layoutChangeExampleState.widgets l
            = { id := none, layout := l, settings := none }) ∧
        (∀ g ∈ layoutChangeExampleState.widgets, ∀ s, g.id = some s →
          (∀ l ∈ layoutChangeExampleLayouts, l.i ≠ s) →
          g ∉ (handleLayoutChange layoutChangeExampleLayouts
              layoutChangeExampleState).widgets)) :=
  ⟨rfl, layout_change_merge_shape layoutChangeExampleLayouts
    layoutChangeExampleState rfl⟩

end CustomHomepageGrid
